import Mathlib

/-!
Verification development for the DeepseekP2.2 repository.

Part 1 — the hardware-tier model-configuration resolver, a shallow
embedding of `determine_optimal_config` and the force-override paths of
`load_model` (src/r1_1776_utils.py) and `DeepSeekModel.load_model`
(src/DeepSeek_Models/start.py).

Part 2 — the session persistence manager, a shallow embedding of
`SessionManager` (src/selenium_qt_browser/session_manager.py): saving and
restoring tabs, the spreadsheet cell-map wire codec, chat logs and the
browsing-history file.

Python floats are modelled as exact rationals (ℚ); Python `int()` as
truncation toward zero; JSON files as parsed values (an `Option` is `none`
when the file does not exist).
-/

/-- Python `int()` applied to a float: truncation toward zero
(floor for non-negative values, ceiling for negative ones). -/
def pyTrunc (q : ℚ) : ℤ := if 0 ≤ q then ⌊q⌋ else ⌈q⌉

/-- The `device_map` values the resolver can produce: `"auto"`, `"cpu"`, `"mps"`. -/
inductive DeviceMap
  | auto
  | cpu
  | mps
deriving DecidableEq, Repr

/-- The only torch dtype the resolver ever mentions (`torch.float16`). -/
inductive TorchDtype
  | float16
deriving DecidableEq, Repr

/-- A key of the `max_memory` budget dict: a GPU index `i` or the string `"cpu"`. -/
inductive MemKey
  | gpu (i : ℕ)
  | cpu
deriving DecidableEq, Repr

/-- The resolver's input, as assembled by `get_system_info`
(src/r1_1776_utils.py lines 29-70).  `gpu_info` keeps each CUDA device's
`memory_gb` field; the single MPS entry's `memory_gb` is the string
`"shared"`, which the resolver never reads, so MPS contributes no entry
here.  `gpu_memory_gb` is the sum over CUDA devices (0 without CUDA). -/
structure SystemInfo where
  has_cuda : Bool
  has_mps : Bool
  gpu_count : ℕ
  gpu_info : List ℚ
  gpu_memory_gb : ℚ
  ram_total_gb : ℚ
  ram_available_gb : ℚ
deriving DecidableEq, Repr

/-- The fixed offload cache path chosen by the low-resource branch
(`~/.cache/r1-1776-offload`). -/
def offloadPath : String := "~/.cache/r1-1776-offload"

/-- The configuration dict built by `determine_optimal_config`
(src/r1_1776_utils.py lines 72-155).  The two `bnb_4bit_*` keys are absent
from the initial dict and only inserted by the INT4 branches, hence
`Option` here. -/
structure LoadConfig where
  device_map : DeviceMap
  torch_dtype : TorchDtype
  load_in_8bit : Bool
  load_in_4bit : Bool
  use_cpu : Bool
  offload_folder : Option String
  max_memory : Option (List (MemKey × String))
  low_cpu_mem_usage : Bool
  bnb_4bit_compute_dtype : Option TorchDtype
  bnb_4bit_quant_type : Option String
deriving DecidableEq, Repr

/-- The initial configuration dict of `determine_optimal_config`
(src/r1_1776_utils.py lines 82-91). -/
def baseConfig : LoadConfig :=
  { device_map := .auto
    torch_dtype := .float16
    load_in_8bit := false
    load_in_4bit := false
    use_cpu := false
    offload_folder := none
    max_memory := none
    low_cpu_mem_usage := true
    bnb_4bit_compute_dtype := none
    bnb_4bit_quant_type := none }

/-- One entry of the multi-GPU budget: `f"{int(memory_gb * 0.9)}GiB"`
(src/r1_1776_utils.py line 150). -/
def gpuBudget (m : ℚ) : String := toString (pyTrunc (m * (9 / 10))) ++ "GiB"

/-- The multi-GPU `max_memory` dict (src/r1_1776_utils.py lines 147-152):
90% of each GPU's reported memory, truncated to integer GiB, plus a CPU
reservation of 50% of available RAM.  Python indexes `gpu_info[i]` for
`i < gpu_count`; `get_system_info` always makes `len(gpu_info) == gpu_count`
when CUDA is present, so the `getD 0` default is never reached on such
profiles (Python would raise `IndexError` instead). -/
def maxMemoryBudget (s : SystemInfo) : List (MemKey × String) :=
  ((List.range s.gpu_count).map fun i => (MemKey.gpu i, gpuBudget ((s.gpu_info[i]?).getD 0)))
    ++ [(MemKey.cpu, toString (pyTrunc (s.ram_available_gb * (1 / 2))) ++ "GiB")]

/-- The tier ladder of `determine_optimal_config` (src/r1_1776_utils.py
lines 93-142): first matching rule wins.  The `os.makedirs` side effect of
the low-resource branch is not modelled; no branch validates the input and
none has an error path. -/
def tierConfig (s : SystemInfo) : LoadConfig :=
  if s.has_cuda ∧ 24 ≤ s.gpu_memory_gb then baseConfig
  else if s.has_cuda ∧ 12 ≤ s.gpu_memory_gb then baseConfig
  else if s.has_cuda ∧ 8 ≤ s.gpu_memory_gb then { baseConfig with load_in_8bit := true }
  else if s.has_cuda ∧ 4 ≤ s.gpu_memory_gb then
    { baseConfig with
        load_in_4bit := true
        bnb_4bit_compute_dtype := some .float16
        bnb_4bit_quant_type := some "nf4" }
  else if s.has_mps then
    { baseConfig with
        device_map := .mps
        load_in_4bit := true
        bnb_4bit_compute_dtype := some .float16
        bnb_4bit_quant_type := some "nf4" }
  else if 16 ≤ s.ram_total_gb then
    { baseConfig with
        device_map := .cpu
        load_in_4bit := true
        bnb_4bit_compute_dtype := some .float16
        bnb_4bit_quant_type := some "nf4"
        use_cpu := true }
  else
    { baseConfig with
        device_map := .cpu
        load_in_4bit := true
        bnb_4bit_compute_dtype := some .float16
        bnb_4bit_quant_type := some "nf4"
        use_cpu := true
        offload_folder := some offloadPath }

/-- `determine_optimal_config` (src/r1_1776_utils.py lines 72-155): the
tier ladder, then the multi-GPU post-step (lines 144-153), which runs
whenever CUDA is present with more than one GPU, whatever tier matched. -/
def determine_optimal_config (s : SystemInfo) : LoadConfig :=
  if s.has_cuda ∧ 1 < s.gpu_count then
    { tierConfig s with max_memory := some (maxMemoryBudget s) }
  else tierConfig s

/-- The precision tiers of the spec's `LoadConfiguration`. -/
inductive Precision
  | fp16
  | int8
  | int4
deriving DecidableEq, Repr

/-- The precision tier a configuration encodes: INT8 when `load_in_8bit`,
INT4 when `load_in_4bit`, otherwise plain FP16 (`torch_dtype` is always
`float16`). -/
def precisionMode (c : LoadConfig) : Precision :=
  if c.load_in_8bit then .int8 else if c.load_in_4bit then .int4 else .fp16

example :
    precisionMode (determine_optimal_config
      { has_cuda := true, has_mps := false, gpu_count := 1, gpu_info := [2399/100],
        gpu_memory_gb := 2399/100, ram_total_gb := 32, ram_available_gb := 16 }) =
      .fp16 := by
  norm_num [determine_optimal_config, tierConfig, precisionMode, baseConfig]

example :
    (determine_optimal_config
      { has_cuda := true, has_mps := false, gpu_count := 2, gpu_info := [10, 20],
        gpu_memory_gb := 30, ram_total_gb := 64, ram_available_gb := 32 }).max_memory =
      some [(.gpu 0, "9GiB"), (.gpu 1, "18GiB"), (.cpu, "16GiB")] := by
  norm_num [determine_optimal_config, tierConfig, maxMemoryBudget, gpuBudget, pyTrunc,
    baseConfig, List.range_succ]
  decide

/-! ### The force-override paths of the two model loaders -/

/-- A value stored in the flat keyword-configuration dict handed to the
model loader: the union of the value shapes `determine_optimal_config`
stores (strings, bools, torch dtypes, device maps, the `max_memory` dict,
Python `None`). -/
inductive PyVal
  | s (v : String)
  | b (v : Bool)
  | dt (v : TorchDtype)
  | dm (v : DeviceMap)
  | mm (v : List (MemKey × String))
  | nil
deriving DecidableEq, Repr

/-- A Python dict as an insertion-ordered association list. -/
abbrev PyDict := List (String × PyVal)
/-- `d[k] = v` on a Python dict: replace the value of an existing key in
place (Python dict keys are unique, so at most one entry matches),
append a new entry otherwise. -/
def pySet : PyDict → String → PyVal → PyDict
  | [], k, v => [(k, v)]
  | p :: d, k, v => if p.1 = k then (k, v) :: d else p :: pySet d k v

/-- `base.update(upd)` on Python dicts: set each key of `upd` in order. -/
def pyDictUpdate (base upd : PyDict) : PyDict :=
  upd.foldl (fun d p => pySet d p.1 p.2) base

/-- `d.get(k)`: the value of the first entry with key `k`. -/
def pyGet? : PyDict → String → Option PyVal
  | [], _ => none
  | p :: d, k => if p.1 = k then some p.2 else pyGet? d k

/-- An `Option` field rendered as the dict value Python holds for it. -/
def optStrVal : Option String → PyVal
  | some v => .s v
  | none => .nil

/-- The `max_memory` field rendered as a dict value. -/
def optMemVal : Option (List (MemKey × String)) → PyVal
  | some v => .mm v
  | none => .nil

/-- The configuration dict exactly as `determine_optimal_config` leaves
it: the eight keys of the initial literal (src/r1_1776_utils.py lines
82-91) in insertion order, then the two `bnb_4bit_*` keys when a 4-bit
branch inserted them. -/
def configDict (c : LoadConfig) : PyDict :=
  [("device_map", .dm c.device_map),
   ("torch_dtype", .dt c.torch_dtype),
   ("load_in_8bit", .b c.load_in_8bit),
   ("load_in_4bit", .b c.load_in_4bit),
   ("use_cpu", .b c.use_cpu),
   ("offload_folder", optStrVal c.offload_folder),
   ("max_memory", optMemVal c.max_memory),
   ("low_cpu_mem_usage", .b c.low_cpu_mem_usage)]
  ++ (match c.bnb_4bit_compute_dtype with
      | some d => [("bnb_4bit_compute_dtype", PyVal.dt d)]
      | none => [])
  ++ (match c.bnb_4bit_quant_type with
      | some q => [("bnb_4bit_quant_type", PyVal.s q)]
      | none => [])

/-- The configuration `r1_1776_utils.load_model` actually uses
(src/r1_1776_utils.py line 203):
`config = force_config if force_config else determine_optimal_config(...)`.
A non-empty `force_config` replaces the automatic configuration whole
(Python truthiness: `None` and the empty dict fall back to the automatic
one, which is what the `isEmpty` test models). -/
def r1_load_config (auto : PyDict) (force : Option PyDict) : PyDict :=
  match force with
  | some f => if f.isEmpty then auto else f
  | none => auto

/-- The configuration `DeepSeekModel.load_model` actually uses
(src/DeepSeek_Models/start.py lines 102-108): the automatic configuration,
then `config.update(force_config)` when a non-empty override is given. -/
def ds_load_config (auto : PyDict) (force : Option PyDict) : PyDict :=
  match force with
  | some f => if f.isEmpty then auto else pyDictUpdate auto f
  | none => auto

/-- Looking a key up after a single Python dict assignment. -/
theorem pyGet?_pySet (d : PyDict) (k k' : String) (v : PyVal) :
    pyGet? (pySet d k v) k' = if k = k' then some v else pyGet? d k' := by
  induction d with
  | nil => simp [pySet, pyGet?]
  | cons p d ih =>
    by_cases hp : p.1 = k
    · by_cases h : k = k' <;> simp [pySet, pyGet?, hp, h]
    · by_cases h : k = k'
      · subst h
        simp [pySet, pyGet?, hp, ih]
      · simp [pySet, pyGet?, hp, h, ih]

/-- A key absent from a dict's key list looks up to nothing. -/
theorem pyGet?_eq_none_of_not_mem (f : PyDict) (k : String)
    (h : k ∉ f.map Prod.fst) : pyGet? f k = none := by
  induction f with
  | nil => rfl
  | cons q f ih =>
    simp only [List.map_cons, List.mem_cons, not_or] at h
    have hq : ¬ q.1 = k := fun he => h.1 he.symm
    simp [pyGet?, hq, ih h.2]

/-- `dict.update` is a field-by-field merge: an updated key takes the
override's value, any other key keeps the base dict's value.  The
override's keys are assumed distinct, as Python dict iteration yields
them. -/
theorem pyGet?_pyDictUpdate (base f : PyDict) (k : String)
    (hnd : (f.map Prod.fst).Nodup) :
    pyGet? (pyDictUpdate base f) k =
      match pyGet? f k with
      | some v => some v
      | none => pyGet? base k := by
  induction f generalizing base with
  | nil => simp [pyDictUpdate, pyGet?]
  | cons p f ih =>
    simp only [List.map_cons, List.nodup_cons] at hnd
    have step : pyDictUpdate base (p :: f) = pyDictUpdate (pySet base p.1 p.2) f := rfl
    rw [step, ih _ hnd.2]
    by_cases h : p.1 = k
    · subst h
      rw [pyGet?_eq_none_of_not_mem f p.1 hnd.1, pyGet?_pySet]
      simp [pyGet?]
    · rw [pyGet?_pySet]
      simp [pyGet?, h]

/-! ### Helper lemmas: the post-step only touches `max_memory` -/

/-- The multi-GPU post-step leaves every field except `max_memory` as the
tier ladder set it. -/
theorem resolve_tier_fields (s : SystemInfo) :
    (determine_optimal_config s).load_in_8bit = (tierConfig s).load_in_8bit
    ∧ (determine_optimal_config s).load_in_4bit = (tierConfig s).load_in_4bit
    ∧ (determine_optimal_config s).offload_folder = (tierConfig s).offload_folder
    ∧ (determine_optimal_config s).bnb_4bit_compute_dtype = (tierConfig s).bnb_4bit_compute_dtype
    ∧ (determine_optimal_config s).bnb_4bit_quant_type = (tierConfig s).bnb_4bit_quant_type
    ∧ (determine_optimal_config s).torch_dtype = (tierConfig s).torch_dtype := by
  unfold determine_optimal_config
  split <;> exact ⟨rfl, rfl, rfl, rfl, rfl, rfl⟩

/-- The precision tier is decided by the ladder alone. -/
theorem precisionMode_resolve (s : SystemInfo) :
    precisionMode (determine_optimal_config s) = precisionMode (tierConfig s) := by
  unfold determine_optimal_config precisionMode
  split <;> rfl

/-- C5.  For a CUDA profile the resolver never turns on both quantization
flags, and the tier boundaries are closed on the lower bound: FP16 for
`24 ≤ g`, FP16 for `12 ≤ g < 24`, INT8 for `8 ≤ g < 12`, INT4 (with
`bnb_4bit_compute_dtype = float16` and `bnb_4bit_quant_type = "nf4"`) for
`4 ≤ g < 8`, where `g` is the profile's total GPU memory. -/
theorem resolver_gpu_tier_selection (s : SystemInfo) (h : s.has_cuda = true) :
    ((determine_optimal_config s).load_in_8bit = false ∨
      (determine_optimal_config s).load_in_4bit = false)
    ∧ (24 ≤ s.gpu_memory_gb → precisionMode (determine_optimal_config s) = .fp16)
    ∧ (12 ≤ s.gpu_memory_gb → s.gpu_memory_gb < 24 →
        precisionMode (determine_optimal_config s) = .fp16)
    ∧ (8 ≤ s.gpu_memory_gb → s.gpu_memory_gb < 12 →
        precisionMode (determine_optimal_config s) = .int8)
    ∧ (4 ≤ s.gpu_memory_gb → s.gpu_memory_gb < 8 →
        precisionMode (determine_optimal_config s) = .int4
        ∧ (determine_optimal_config s).bnb_4bit_compute_dtype = some .float16
        ∧ (determine_optimal_config s).bnb_4bit_quant_type = some "nf4") := by
  obtain ⟨h8, h4b, _, hcd, hqt, _⟩ := resolve_tier_fields s
  rw [precisionMode_resolve, h8, h4b, hcd, hqt]
  refine ⟨?_, ?_, ?_, ?_, ?_⟩
  · unfold tierConfig
    split_ifs <;> simp [baseConfig]
  · intro hg
    simp [tierConfig, h, hg, precisionMode, baseConfig]
  · intro hg hlt
    have h24 : ¬ (24 ≤ s.gpu_memory_gb) := not_le.mpr hlt
    simp [tierConfig, h, hg, h24, precisionMode, baseConfig]
  · intro hg hlt
    have h24 : ¬ (24 ≤ s.gpu_memory_gb) := not_le.mpr (by linarith)
    have h12 : ¬ (12 ≤ s.gpu_memory_gb) := not_le.mpr hlt
    simp [tierConfig, h, hg, h24, h12, precisionMode, baseConfig]
  · intro hg hlt
    have h24 : ¬ (24 ≤ s.gpu_memory_gb) := not_le.mpr (by linarith)
    have h12 : ¬ (12 ≤ s.gpu_memory_gb) := not_le.mpr (by linarith)
    have h8g : ¬ (8 ≤ s.gpu_memory_gb) := not_le.mpr hlt
    simp [tierConfig, h, hg, h24, h12, h8g, precisionMode, baseConfig]

/-- A single-GPU CUDA profile with 23 GB of VRAM, in the 12-24 GB tier. -/
def sInfoG23 : SystemInfo :=
  { has_cuda := true, has_mps := false, gpu_count := 1, gpu_info := [23],
    gpu_memory_gb := 23, ram_total_gb := 32, ram_available_gb := 16 }

/-- C5 witness: at 23 GB the mid tier gives plain FP16. -/
theorem resolver_gpu_tier_selection_w :
    precisionMode (determine_optimal_config sInfoG23) = .fp16 :=
  (resolver_gpu_tier_selection sInfoG23 rfl).2.2.1 (by norm_num [sInfoG23])
    (by norm_num [sInfoG23])

/-- C6.  With CUDA and more than one GPU — the only way `get_system_info`
(src/r1_1776_utils.py lines 50-61) produces `gpu_count > 1`, and it then
fills `gpu_info` with exactly `gpu_count` entries — the resolver attaches
a `max_memory` budget of `floor(0.9 * memory)` GiB per GPU and
`floor(0.5 * ram_available_gb)` GiB for the CPU, whatever tier matched. -/
theorem resolver_multi_gpu_budget (s : SystemInfo)
    (hc : s.has_cuda = true) (hn : 1 < s.gpu_count)
    (_hlen : s.gpu_info.length = s.gpu_count)
    (hmem : ∀ m ∈ s.gpu_info, 0 ≤ m) (hram : 0 ≤ s.ram_available_gb) :
    (determine_optimal_config s).max_memory =
      some ((((List.range s.gpu_count).map fun i =>
          (MemKey.gpu i, toString ⌊(9/10 : ℚ) * ((s.gpu_info[i]?).getD 0)⌋ ++ "GiB")))
        ++ [(MemKey.cpu, toString ⌊(1/2 : ℚ) * s.ram_available_gb⌋ ++ "GiB")]) := by
  have hcond : (s.has_cuda ∧ 1 < s.gpu_count) := ⟨hc, hn⟩
  have hmm : (determine_optimal_config s).max_memory = some (maxMemoryBudget s) := by
    unfold determine_optimal_config
    rw [if_pos hcond]
  rw [hmm]
  unfold maxMemoryBudget
  congr 1
  congr 1
  · apply List.map_congr_left
    intro i _
    have hm : 0 ≤ (s.gpu_info[i]?).getD 0 := by
      cases hi : s.gpu_info[i]? with
      | none => simp
      | some m =>
        have : m ∈ s.gpu_info := by
          have hlt : i < s.gpu_info.length := by
            by_contra hge
            rw [List.getElem?_eq_none (le_of_not_lt hge)] at hi
            exact Option.noConfusion hi
          rw [List.getElem?_eq_getElem hlt] at hi
          cases hi
          exact List.getElem_mem hlt
        simpa using hmem _ this
    have : pyTrunc ((s.gpu_info[i]?).getD 0 * (9 / 10)) =
        ⌊(9/10 : ℚ) * ((s.gpu_info[i]?).getD 0)⌋ := by
      unfold pyTrunc
      rw [if_pos (mul_nonneg hm (by norm_num)), mul_comm]
    simp [gpuBudget, this]
  · have : pyTrunc (s.ram_available_gb * (1 / 2)) = ⌊(1/2 : ℚ) * s.ram_available_gb⌋ := by
      unfold pyTrunc
      rw [if_pos (mul_nonneg hram (by norm_num)), mul_comm]
    rw [this]

/-- A dual-GPU CUDA profile: 10 GB and 20 GB devices, 32 GB of RAM free. -/
def sDualGpu : SystemInfo :=
  { has_cuda := true, has_mps := false, gpu_count := 2, gpu_info := [10, 20],
    gpu_memory_gb := 30, ram_total_gb := 64, ram_available_gb := 32 }

/-- C6 witness: memories `[10, 20]` with 32 GB available RAM give the
budget `{0: "9GiB", 1: "18GiB", "cpu": "16GiB"}`. -/
theorem resolver_multi_gpu_budget_w :
    (determine_optimal_config sDualGpu).max_memory =
      some [(MemKey.gpu 0, "9GiB"), (MemKey.gpu 1, "18GiB"), (MemKey.cpu, "16GiB")] := by
  have h := resolver_multi_gpu_budget sDualGpu rfl (by norm_num [sDualGpu])
    (by norm_num [sDualGpu])
    (by intro m hm; simp [sDualGpu] at hm; rcases hm with h1 | h1 <;> norm_num [h1])
    (by norm_num [sDualGpu])
  rw [h]
  norm_num [sDualGpu, List.range_succ]
  refine ⟨?_, ?_, ?_⟩ <;> decide

/-- C7 (amended).  The offload folder is set exactly when the low-resource
branch is reached: RAM below 16 GB, no MPS, and either no CUDA at all or
CUDA with total GPU memory below 4 GB.  A CUDA GPU under 4 GB therefore
does not prevent offloading, which is what corrects the claim. -/
theorem resolver_offload_condition (s : SystemInfo) :
    (determine_optimal_config s).offload_folder = some offloadPath ↔
      ((s.has_cuda = false ∨ s.gpu_memory_gb < 4)
        ∧ s.has_mps = false ∧ s.ram_total_gb < 16) := by
  obtain ⟨_, _, hoff, _, _, _⟩ := resolve_tier_fields s
  rw [hoff]
  unfold tierConfig
  split_ifs with h1 h2 h3 h4 h5 h6
  · simp only [baseConfig]
    constructor
    · intro h
      exact Option.noConfusion h
    · rintro ⟨ha, -, -⟩
      rcases ha with ha | ha
      · rw [h1.1] at ha
        exact Bool.noConfusion ha
      · linarith [h1.2]
  · simp only [baseConfig]
    constructor
    · intro h
      exact Option.noConfusion h
    · rintro ⟨ha, -, -⟩
      rcases ha with ha | ha
      · rw [h2.1] at ha
        exact Bool.noConfusion ha
      · linarith [h2.2]
  · simp only []
    constructor
    · intro h
      exact Option.noConfusion h
    · rintro ⟨ha, -, -⟩
      rcases ha with ha | ha
      · rw [h3.1] at ha
        exact Bool.noConfusion ha
      · linarith [h3.2]
  · simp only []
    constructor
    · intro h
      exact Option.noConfusion h
    · rintro ⟨ha, -, -⟩
      rcases ha with ha | ha
      · rw [h4.1] at ha
        exact Bool.noConfusion ha
      · linarith [h4.2]
  · simp only []
    constructor
    · intro h
      exact Option.noConfusion h
    · rintro ⟨-, hm, -⟩
      rw [hm] at h5
      exact Bool.noConfusion h5
  · simp only []
    constructor
    · intro h
      exact Option.noConfusion h
    · rintro ⟨-, -, hr⟩
      linarith
  · simp only [true_iff]
    refine ⟨?_, ?_, ?_⟩
    · by_cases hc : s.has_cuda = true
      · right
        by_contra hge
        exact h4 ⟨hc, le_of_not_lt hge⟩
      · left
        exact Bool.eq_false_iff.mpr (fun h => hc h)
    · exact Bool.eq_false_iff.mpr (fun h => h5 h)
    · exact lt_of_not_le h6

/-- A CUDA GPU with only 2 GB of VRAM on a low-RAM machine. -/
def sTinyGpu : SystemInfo :=
  { has_cuda := true, has_mps := false, gpu_count := 1, gpu_info := [2],
    gpu_memory_gb := 2, ram_total_gb := 8, ram_available_gb := 4 }

/-- C7 counterexample: an accelerator (a CUDA GPU) is present, yet the
resolver still sets the offload folder, because the sub-4 GB GPU falls
through every GPU tier into the low-resource branch. -/
theorem resolver_offload_with_gpu_cex :
    (determine_optimal_config sTinyGpu).offload_folder = some offloadPath
    ∧ sTinyGpu.has_cuda = true ∧ sTinyGpu.ram_total_gb < 16 := by
  refine ⟨?_, rfl, by norm_num [sTinyGpu]⟩
  norm_num [determine_optimal_config, tierConfig, sTinyGpu, baseConfig]

/-- A malformed profile: negative RAM figures. -/
def sNegProfile : SystemInfo :=
  { has_cuda := false, has_mps := false, gpu_count := 0, gpu_info := [],
    gpu_memory_gb := 0, ram_total_gb := -5, ram_available_gb := -5 }

/-- C8 counterexample: on a malformed (negative-RAM) profile the resolver
does not raise anything — it runs the low-resource branch to completion
and returns an ordinary configuration. -/
theorem resolver_negative_profile_cex :
    determine_optimal_config sNegProfile =
      { baseConfig with
          device_map := .cpu
          load_in_4bit := true
          bnb_4bit_compute_dtype := some .float16
          bnb_4bit_quant_type := some "nf4"
          use_cpu := true
          offload_folder := some offloadPath } := by
  norm_num [determine_optimal_config, tierConfig, sNegProfile, baseConfig]

/-- C8 (amended).  `determine_optimal_config` validates nothing and has no
error path: for every profile, malformed (negative values) or not, it
returns a configuration, always with `torch_dtype = float16` and never
with both quantization flags on. -/
theorem resolver_no_validation_total (s : SystemInfo) :
    ((determine_optimal_config s).load_in_8bit = false
      ∨ (determine_optimal_config s).load_in_4bit = false)
    ∧ (determine_optimal_config s).torch_dtype = .float16 := by
  obtain ⟨h8, h4b, _, _, _, hdt⟩ := resolve_tier_fields s
  rw [h8, h4b, hdt]
  unfold tierConfig
  split_ifs <;> simp [baseConfig]

/-- C4 (amended).  Only `DeepSeekModel.load_model` merges the override
field by field (`dict.update`): each overridden key takes the override's
value and every other key keeps its automatically resolved value.  In
`r1_1776_utils.load_model` a non-empty override replaces the automatic
configuration whole. -/
theorem force_override_field_scoped (auto f : PyDict) (k : String)
    (hnd : (f.map Prod.fst).Nodup) (hne : f ≠ []) :
    pyGet? (ds_load_config auto (some f)) k =
      (match pyGet? f k with
       | some v => some v
       | none => pyGet? auto k)
    ∧ r1_load_config auto (some f) = f := by
  have hf : f.isEmpty = false := by
    cases f with
    | nil => exact absurd rfl hne
    | cons a l => rfl
  constructor
  · simp only [ds_load_config, hf, Bool.false_eq_true, if_false]
    exact pyGet?_pyDictUpdate auto f k hnd
  · simp [r1_load_config, hf]

/-- A single-GPU 24 GB CUDA profile: the high-end FP16 tier. -/
def sGpu24 : SystemInfo :=
  { has_cuda := true, has_mps := false, gpu_count := 1, gpu_info := [24],
    gpu_memory_gb := 24, ram_total_gb := 64, ram_available_gb := 32 }

/-- On the 24 GB profile the resolver returns the plain FP16 defaults. -/
theorem resolve_sGpu24 : determine_optimal_config sGpu24 = baseConfig := by
  norm_num [determine_optimal_config, tierConfig, sGpu24, baseConfig]

/-- C4 counterexample: in `r1_1776_utils.load_model`, forcing
`{"device_map": "cpu"}` on the GPU-tier result does not retain the
auto-selected `torch_dtype` — the override replaces the configuration
whole, so the key is simply gone. -/
theorem force_override_r1_full_replace_cex :
    pyGet? (r1_load_config (configDict (determine_optimal_config sGpu24))
        (some [("device_map", PyVal.s "cpu")])) "torch_dtype" = none
    ∧ pyGet? (configDict (determine_optimal_config sGpu24)) "torch_dtype" =
        some (.dt .float16) := by
  rw [resolve_sGpu24]
  exact ⟨rfl, rfl⟩

/-- C4 witness: on the DeepSeek path the same override keeps the
auto-selected `torch_dtype` while taking the forced `device_map`. -/
theorem force_override_field_scoped_w :
    pyGet? (ds_load_config (configDict baseConfig)
        (some [("device_map", PyVal.s "cpu")])) "torch_dtype" =
      some (.dt .float16)
    ∧ pyGet? (ds_load_config (configDict baseConfig)
        (some [("device_map", PyVal.s "cpu")])) "device_map" =
      some (.s "cpu") := by
  constructor
  · exact (force_override_field_scoped (configDict baseConfig)
      [("device_map", PyVal.s "cpu")] "torch_dtype" (by decide) (by decide)).1.trans rfl
  · exact (force_override_field_scoped (configDict baseConfig)
      [("device_map", PyVal.s "cpu")] "device_map" (by decide) (by decide)).1.trans rfl

/-! ### Part 2 — the session persistence manager -/

/-- The tab kinds (src/selenium_qt_browser/tab_types.py lines 10-18).  The
spec's names NOTE, SHEET and MONITOR correspond to NOTEPAGE, NOTEPAGE_EXC
and RESOURCE_MONITOR. -/
inductive TabType
  | BROWSER
  | CHAT
  | TERMINAL
  | NOTEPAGE
  | NOTEPAGE_EXC
  | RESOURCE_MONITOR
  | AI_BROWSER
deriving DecidableEq, Repr

/-- `tab.tab_type.name`: the enum member's name as a string. -/
def TabType.name : TabType → String
  | .BROWSER => "BROWSER"
  | .CHAT => "CHAT"
  | .TERMINAL => "TERMINAL"
  | .NOTEPAGE => "NOTEPAGE"
  | .NOTEPAGE_EXC => "NOTEPAGE_EXC"
  | .RESOURCE_MONITOR => "RESOURCE_MONITOR"
  | .AI_BROWSER => "AI_BROWSER"

/-- A key of the spreadsheet's sparse cell map
(src/selenium_qt_browser/notepage_exc.py line 26): a `(row, col)` tuple
for cells edited live, or a plain string for keys the loader passed
through unchanged. -/
inductive SKey
  | cell (r c : ℤ)
  | raw (v : String)
deriving DecidableEq, Repr

/-- `json.dump` applied to one dict key: string keys serialize as
themselves; tuple keys are not a JSON key type and raise
`TypeError: keys must be str, int, float, bool or None`. -/
def dumpKey : SKey → Except Unit String
  | .cell _ _ => .error ()
  | .raw v => .ok v

/-- `json.dump(tab.spreadsheet_model.data, f)`
(src/selenium_qt_browser/session_manager.py line 92): serialize the cell
map, failing on the first tuple key. -/
def encodeSheet : List (SKey × String) → Except Unit (List (String × String))
  | [] => .ok []
  | (k, v) :: rest =>
    match dumpKey k with
    | .error e => .error e
    | .ok ks =>
      match encodeSheet rest with
      | .error e => .error e
      | .ok tail => .ok ((ks, v) :: tail)

/-- Python `str.strip()` on a character list: drop whitespace from both
ends. -/
def pyStripChars (cs : List Char) : List Char :=
  ((cs.dropWhile Char.isWhitespace).reverse.dropWhile Char.isWhitespace).reverse

/-- A non-empty run of decimal digits read as a number (`none` as soon as
a non-digit appears). -/
def digitsToNatAux : List Char → ℕ → Option ℕ
  | [], acc => some acc
  | c :: cs, acc =>
    if c.isDigit then digitsToNatAux cs (acc * 10 + (c.toNat - 48)) else none

/-- See `digitsToNatAux`; the empty run is rejected. -/
def digitsToNat (cs : List Char) : Option ℕ :=
  match cs with
  | [] => none
  | _ => digitsToNatAux cs 0

/-- Python `int(str)`: outer whitespace stripped, one optional sign, then
decimal digits (the underscore digit separator Python also accepts is not
modelled; no key this program writes contains one). -/
def pyIntChars (cs : List Char) : Option ℤ :=
  match pyStripChars cs with
  | '-' :: rest => (digitsToNat rest).map (fun n => -(n : ℤ))
  | '+' :: rest => (digitsToNat rest).map (fun n => (n : ℤ))
  | t => (digitsToNat t).map (fun n => (n : ℤ))

/-- Python `str.split(",")`: the comma-separated pieces, keeping empty
ones (`"".split(",")` is `[""]`). -/
def splitOnComma : List Char → List (List Char)
  | [] => [[]]
  | c :: cs =>
    let rest := splitOnComma cs
    if c = ',' then [] :: rest
    else
      match rest with
      | r :: rs => (c :: r) :: rs
      | [] => [[c]]

/-- The key-conversion loop body of `_load_tabs`
(src/selenium_qt_browser/session_manager.py lines 245-256): a key wrapped
in parentheses that splits on `","` into exactly two `int()`-parsable
parts becomes a `(row, col)` tuple; a two-part split where `int()` raises
`ValueError` keeps the string key; a key not wrapped in parentheses is
kept as is; a parenthesised key that does not split into exactly two
parts matches no branch of the source, so the entry is dropped (`none`
here). -/
def convertEntry (k v : String) : Option (SKey × String) :=
  if k.data.head? = some '(' ∧ k.data.getLast? = some ')' then
    match splitOnComma ((k.data.drop 1).dropLast) with
    | [a, b] =>
      match pyIntChars a, pyIntChars b with
      | some r, some c => some (.cell r c, v)
      | _, _ => some (.raw k, v)
    | _ => none
  else some (.raw k, v)

/-- The whole converted cell map (`converted_data`). -/
def convertSheet (data : List (String × String)) : List (SKey × String) :=
  data.filterMap (fun p => convertEntry p.1 p.2)

/-- A live tab as the session manager reads it: its kind plus the
per-kind payload accessors it uses (`current_url`,
`text_editor.toPlainText`, `spreadsheet_model.data`, the chat messages as
(sender, message) pairs).  `title` is what `tab_widget.tabText` shows. -/
structure Tab where
  kind : TabType
  title : String := ""
  url : String := ""
  noteText : String := ""
  sheet : List (SKey × String) := []
  chat : List (String × String) := []
deriving DecidableEq, Repr

/-- One entry of `tabs.json` (src/selenium_qt_browser/session_manager.py
lines 71-93): index and title always; the `type` key whenever the tab has
a kind; one of `url`, `note_file`, `sheet_file` depending on the kind. -/
structure TabRecord where
  index : ℕ
  title : String
  type? : Option String := none
  url? : Option String := none
  note_file? : Option String := none
  sheet_file? : Option String := none
deriving DecidableEq, Repr

/-- One entry of `history/history.json`
(src/selenium_qt_browser/session_manager.py lines 148-152). -/
structure HistEntry where
  url : String
  title : String
  timestamp : String
deriving DecidableEq, Repr

/-- One entry of `chat_logs/chats.json`
(src/selenium_qt_browser/session_manager.py lines 124-127). -/
structure ChatLog where
  tab_index : ℕ
  messages : List (String × String)
deriving DecidableEq, Repr

/-- The on-disk state of `sessions/last_session/`: each JSON file as a
parsed value (`none` = the file does not exist), and the two payload file
families under `notes/` as name-content maps.  `metadata.json` is not
modelled; nothing reads it back into the session. -/
structure SessionDir where
  tabsJson : Option (List TabRecord) := none
  noteFiles : List (String × String) := []
  sheetFiles : List (String × List (String × String)) := []
  chatsJson : Option (List ChatLog) := none
  historyJson : Option (List HistEntry) := none
deriving DecidableEq, Repr

/-- Writing a file: overwrite the entry with this name, create it
otherwise.  Stale files from earlier sessions stay. -/
def upsertFile {α : Type} : List (String × α) → String → α → List (String × α)
  | [], name, content => [(name, content)]
  | f :: fs, name, content =>
    if f.1 = name then (name, content) :: fs else f :: upsertFile fs name content

/-- Reading a file by name. -/
def lookupFile {α : Type} : List (String × α) → String → Option α
  | [], _ => none
  | f :: fs, name => if f.1 = name then some f.2 else lookupFile fs name

/-- `f"note_{i}.txt"`. -/
def noteFileName (i : ℕ) : String := "note_" ++ toString i ++ ".txt"

/-- `f"sheet_{i}.json"`. -/
def sheetFileName (i : ℕ) : String := "sheet_" ++ toString i ++ ".json"

/-- Whether the live tab object of this kind carries a `tab_type`
attribute — what `hasattr(tab, "tab_type")` sees.  Only `BrowserTab`
(src/selenium_qt_browser/browser.py line 40), `NotePage`
(src/selenium_qt_browser/notepage.py line 25), `NotePageExc`
(src/selenium_qt_browser/notepage_exc.py line 160), `AIBrowserTab`
(src/selenium_qt_browser/ai_browser_tab.py line 56) and the
resource-monitor factory (src/selenium_qt_browser/browser.py line 369)
ever set it; `AIChatTab` (src/selenium_qt_browser/chat.py) and
`TerminalTab` (src/selenium_qt_browser/terminal.py) never do, so chat and
terminal tabs look untyped to the session manager. -/
def hasTabTypeAttr : TabType → Bool
  | .BROWSER => true
  | .CHAT => false
  | .TERMINAL => false
  | .NOTEPAGE => true
  | .NOTEPAGE_EXC => true
  | .RESOURCE_MONITOR => true
  | .AI_BROWSER => true

/-- The `tab_data` dict built for the tab at position `i`
(src/selenium_qt_browser/session_manager.py lines 71-93): index and
title always; the `type` key and the kind-specific payload keys only
inside the `hasattr(tab, "tab_type")` block (line 77), so a chat or
terminal tab is recorded untyped. -/
def tabRecord (i : ℕ) (t : Tab) : TabRecord :=
  if hasTabTypeAttr t.kind then
    match t.kind with
    | .BROWSER => { index := i, title := t.title, type? := some t.kind.name, url? := some t.url }
    | .NOTEPAGE =>
      { index := i, title := t.title, type? := some t.kind.name,
        note_file? := some (noteFileName i) }
    | .NOTEPAGE_EXC =>
      { index := i, title := t.title, type? := some t.kind.name,
        sheet_file? := some (sheetFileName i) }
    | _ => { index := i, title := t.title, type? := some t.kind.name }
  else { index := i, title := t.title }

/-- The tab loop of `_save_tabs` from position `i` on: the records of
`tabs.json` plus the note and sheet payload files written along the way.
A tuple-keyed sheet aborts the whole save with the `TypeError` from
`json.dump` (nothing catches it), modelled as the `error` outcome.  The
payload writes sit inside the `hasattr(tab, "tab_type")` block in the
source; branching on the kind alone is equivalent because `NotePage` and
`NotePageExc` always carry the attribute. -/
def saveTabsAux : List Tab → ℕ →
    Except Unit (List TabRecord × List (String × String) × List (String × List (String × String)))
  | [], _ => .ok ([], [], [])
  | t :: ts, i =>
    match t.kind with
    | .NOTEPAGE_EXC =>
      match encodeSheet t.sheet with
      | .error e => .error e
      | .ok enc =>
        match saveTabsAux ts (i + 1) with
        | .error e => .error e
        | .ok (rs, ns, ss) => .ok (tabRecord i t :: rs, ns, (sheetFileName i, enc) :: ss)
    | .NOTEPAGE =>
      match saveTabsAux ts (i + 1) with
      | .error e => .error e
      | .ok (rs, ns, ss) => .ok (tabRecord i t :: rs, (noteFileName i, t.noteText) :: ns, ss)
    | _ =>
      match saveTabsAux ts (i + 1) with
      | .error e => .error e
      | .ok (rs, ns, ss) => .ok (tabRecord i t :: rs, ns, ss)

/-- The message scan inside `_save_chat_logs`
(src/selenium_qt_browser/session_manager.py lines 114-122): it keeps the
widgets that expose `sender_label` and `message_label` attributes, but
`ChatMessage` (src/selenium_qt_browser/chat.py lines 43 and 56) holds its
labels in local variables, never as widget attributes, so the scan
matches no widget and yields no messages. -/
def chatWidgetMessages (_t : Tab) : List (String × String) := []

/-- The chat-tab scan of `_save_chat_logs`
(src/selenium_qt_browser/session_manager.py lines 101-131), from position
`i` on: one log entry per tab that both carries `tab_type` and has the
CHAT kind (line 109).  Since `AIChatTab` never sets `tab_type`, no real
tab satisfies the condition and the program always writes an empty
`chats.json`. -/
def chatLogsFrom : List Tab → ℕ → List ChatLog
  | [], _ => []
  | t :: ts, i =>
    if hasTabTypeAttr t.kind ∧ t.kind = .CHAT then
      { tab_index := i, messages := chatWidgetMessages t } :: chatLogsFrom ts (i + 1)
    else chatLogsFrom ts (i + 1)

/-- The history entries of the current session: one per BROWSER tab, in
display order, stamped with the save time
(src/selenium_qt_browser/session_manager.py lines 143-152). -/
def historyEntries (tabs : List Tab) (now : String) : List HistEntry :=
  tabs.filterMap (fun t =>
    if t.kind = .BROWSER then some { url := t.url, title := t.title, timestamp := now }
    else none)

/-- `_save_history` (src/selenium_qt_browser/session_manager.py lines
138-167): read the existing history file if it exists, then write
`existing_history + history` — the old entries first, the new entries
appended after them. -/
def save_history (tabs : List Tab) (now : String) :
    Option (List HistEntry) → List HistEntry
  | some existing => existing ++ historyEntries tabs now
  | none => historyEntries tabs now

/-- `save_session` (src/selenium_qt_browser/session_manager.py lines
33-44): `_save_tabs`, `_save_chat_logs`, `_save_notes` (a no-op),
`_save_history`, then metadata (not modelled).  A `TypeError` from a
tuple-keyed sheet in `_save_tabs` propagates and nothing later runs. -/
def save_session (tabs : List Tab) (now : String) (dir : SessionDir) :
    Except Unit SessionDir :=
  match saveTabsAux tabs 0 with
  | .error e => .error e
  | .ok (rs, ns, ss) =>
    .ok { tabsJson := some rs
          noteFiles := ns.foldl (fun fs p => upsertFile fs p.1 p.2) dir.noteFiles
          sheetFiles := ss.foldl (fun fs p => upsertFile fs p.1 p.2) dir.sheetFiles
          chatsJson := some (chatLogsFrom tabs 0)
          historyJson := some (save_history tabs now dir.historyJson) }

/-- Reading a note payload back (src/selenium_qt_browser/session_manager.py
lines 228-233): no `note_file` entry or a missing file leaves the new
tab's default empty text. -/
def readNote (dir : SessionDir) : Option String → String
  | some n => (lookupFile dir.noteFiles n).getD ""
  | none => ""

/-- Reading and decoding a sheet payload back (lines 237-257): no
`sheet_file` entry or a missing file leaves the new tab's default empty
cell map. -/
def readSheet (dir : SessionDir) : Option String → List (SKey × String)
  | some n =>
    match lookupFile dir.sheetFiles n with
    | some data => convertSheet data
    | none => []
  | none => []

/-- One iteration of the restore loop of `_load_tabs`
(src/selenium_qt_browser/session_manager.py lines 216-258): the tab the
matching factory call creates, or `none` for a record whose `type`
matches no branch (RESOURCE_MONITOR, AI_BROWSER, or a record with no
`type` key), which the loop silently skips. -/
def mkTab (dir : SessionDir) (r : TabRecord) : Option Tab :=
  match r.type? with
  | some "BROWSER" => some { kind := .BROWSER, url := r.url?.getD "" }
  | some "CHAT" => some { kind := .CHAT }
  | some "TERMINAL" => some { kind := .TERMINAL }
  | some "NOTEPAGE" => some { kind := .NOTEPAGE, noteText := readNote dir r.note_file? }
  | some "NOTEPAGE_EXC" => some { kind := .NOTEPAGE_EXC, sheet := readSheet dir r.sheet_file? }
  | _ => none

/-- The restore loop from record position `i` on, with an oracle
`failAt` marking the records whose restoration raises (factory or payload
I/O errors).  The whole loop sits in one `try` whose handler re-raises,
so the first failing record stops everything: the result is `false`
together with the tabs already created before the failure. -/
def restoreTabs (failAt : ℕ → Bool) (dir : SessionDir) :
    List TabRecord → ℕ → Bool × List Tab
  | [], _ => (true, [])
  | r :: rs, i =>
    if failAt i then (false, [])
    else
      match mkTab dir r with
      | some t =>
        match restoreTabs failAt dir rs (i + 1) with
        | (ok, ts) => (ok, t :: ts)
      | none => restoreTabs failAt dir rs (i + 1)

/-- A chat tab freshly created by `add_new_chat_tab` and then filled with
the saved messages. -/
def newChatTab (msgs : List (String × String)) : Tab := { kind := .CHAT, chat := msgs }

/-- One chat log replayed by `_load_chat_logs`
(src/selenium_qt_browser/session_manager.py lines 274-303): if the tab at
the recorded index exists and is a CHAT tab, its messages are cleared and
replaced; otherwise a new chat tab is appended and filled. -/
def applyChatLog (ts : List Tab) (c : ChatLog) : List Tab :=
  match ts[c.tab_index]? with
  | some t =>
    if t.kind = .CHAT then ts.set c.tab_index { t with chat := c.messages }
    else ts ++ [newChatTab c.messages]
  | none => ts ++ [newChatTab c.messages]

/-- `_load_chat_logs`: replay every saved chat log in order (missing
`chats.json` is a silent no-op). -/
def loadChatLogs (dir : SessionDir) (ts : List Tab) : List Tab :=
  match dir.chatsJson with
  | some logs => logs.foldl applyChatLog ts
  | none => ts

/-- `load_last_session` (src/selenium_qt_browser/session_manager.py lines
46-62): `false` without touching anything when `tabs.json` does not
exist; otherwise close every existing tab, restore from the records, then
replay the chat logs (`_load_notes` and `_load_history` are no-ops).  An
exception inside `_load_tabs` is caught here: the function logs, skips
the chat logs and returns `false`, with the already-created tabs left in
place. -/
def load_last_session (failAt : ℕ → Bool) (dir : SessionDir) (prior : List Tab) :
    Bool × List Tab :=
  match dir.tabsJson with
  | none => (false, prior)
  | some rs =>
    match restoreTabs failAt dir rs 0 with
    | (true, ts) => (true, loadChatLogs dir ts)
    | (false, ts) => (false, ts)

/-- The save-then-load composition on an undisturbed directory and an
error-free load: the restored tabs' kinds, or `none` when the save itself
raised. -/
def roundTrip (tabs : List Tab) (now : String) (dir : SessionDir) : Option (List TabType) :=
  match save_session tabs now dir with
  | .ok d => some ((load_last_session (fun _ => false) d []).2.map Tab.kind)
  | .error _ => none

/-- The tab kinds `_load_tabs` has a factory branch for. -/
def handledKind : TabType → Bool
  | .BROWSER => true
  | .CHAT => true
  | .TERMINAL => true
  | .NOTEPAGE => true
  | .NOTEPAGE_EXC => true
  | .RESOURCE_MONITOR => false
  | .AI_BROWSER => false

/-- The kinds that actually survive the save/load round trip: the live
tab must carry `tab_type` (else `_save_tabs` records it untyped) and the
recorded name must have a factory branch in `_load_tabs` (else the
record is skipped).  That leaves BROWSER, NOTEPAGE and NOTEPAGE_EXC. -/
def roundTripKind (k : TabType) : Bool := hasTabTypeAttr k && handledKind k

/-- A sheet whose keys `json.dump` accepts (only pass-through string
keys; any live `(row, col)` tuple key makes the dump raise). -/
def sheetDumpable (t : Tab) : Bool :=
  t.sheet.all (fun p => match p.1 with | .raw _ => true | .cell _ _ => false)

example : roundTrip [{ kind := .BROWSER, url := "https://a" }] "t" {} =
    some [.BROWSER] := by decide

example : roundTrip [{ kind := .RESOURCE_MONITOR }] "t" {} = some [] := by decide

example :
    roundTrip [{ kind := .CHAT, chat := [("me", "hi")] }, { kind := .TERMINAL }] "t" {} =
      some [] := by decide

example : roundTripKind .BROWSER = true ∧ roundTripKind .CHAT = false ∧
    roundTripKind .TERMINAL = false ∧ roundTripKind .RESOURCE_MONITOR = false := by decide

example : encodeSheet [(.cell 0 1, "x")] = .error () := rfl

example : convertEntry "(0,1)" "x" = some (.cell 0 1, "x") := by decide

example : convertEntry "(0, 1)" "x" = some (.cell 0 1, "x") := by decide

example : convertEntry "hello" "x" = some (.raw "hello", "x") := by decide

example : convertEntry "(a,b)" "x" = some (.raw "(a,b)", "x") := by decide

example : convertEntry "(1,2,3)" "x" = none := by decide

/-! ### C1 — history file semantics -/

/-- A browser tab on `https://a.example`. -/
def tabA : Tab := { kind := .BROWSER, title := "A", url := "https://a.example" }

/-- A browser tab on `https://b.example`. -/
def tabB : Tab := { kind := .BROWSER, title := "B", url := "https://b.example" }

/-- C1 counterexample: two successive saves with URLs `[A]` then `[B]`
leave the history file as `[A, B]` — `_save_history` writes
`existing_history + history`, appending the new entries after the old
ones — not the claimed `[B, A]`. -/
theorem history_two_saves_order_cex :
    save_history [tabB] "t2" (some (save_history [tabA] "t1" none)) =
      [{ url := "https://a.example", title := "A", timestamp := "t1" },
       { url := "https://b.example", title := "B", timestamp := "t2" }]
    ∧ save_history [tabB] "t2" (some (save_history [tabA] "t1" none)) ≠
      [{ url := "https://b.example", title := "B", timestamp := "t2" },
       { url := "https://a.example", title := "A", timestamp := "t1" }] := by
  constructor
  · rfl
  · intro h
    exact absurd (congrArg (fun l => List.head? l) h) (by decide)

/-- C1 (amended).  Each save appends the session's browser entries after
the existing file's entries (so two saves `[A]` then `[B]` give `[A, B]`):
nothing is deleted or deduplicated and the file grows by one entry per
open browser tab on every save. -/
theorem history_append_semantics (tabs : List Tab) (now : String) (h : List HistEntry) :
    save_history tabs now (some h) = h ++ historyEntries tabs now
    ∧ save_history tabs now none = historyEntries tabs now
    ∧ (save_history tabs now (some h)).length
        = h.length + (historyEntries tabs now).length := by
  refine ⟨rfl, rfl, ?_⟩
  simp [save_history]

/-! ### C3 — the spreadsheet cell-map wire codec -/

/-- C3: the encoder the round trip needs does not exist — `_save_tabs`
hands the tuple-keyed dict straight to `json.dump`, which rejects tuple
keys, so saving the spec's own example map `{(0,1):"x", (2,3):"y"}`
raises `TypeError` and writes no sheet file; and the decoder drops (not
passes through) a parenthesised key that does not split into exactly two
parts. -/
theorem sheet_codec_bug :
    encodeSheet [(.cell 0 1, "x"), (.cell 2 3, "y")] = .error ()
    ∧ convertSheet [("(1,2,3)", "v")] = []
    ∧ convertSheet [("(0,1)", "x"), ("(2,3)", "y")] =
        [(.cell 0 1, "x"), (.cell 2 3, "y")] :=
  ⟨rfl, rfl, by decide⟩

/-! ### C2 — a failing record aborts the rest of the restore -/

/-- Saved browser record at position 0. -/
def rec0 : TabRecord := { index := 0, title := "", type? := some "BROWSER", url? := some "u0" }

/-- Saved browser record at position 1. -/
def rec1 : TabRecord := { index := 1, title := "", type? := some "BROWSER", url? := some "u1" }

/-- Saved browser record at position 2. -/
def rec2 : TabRecord := { index := 2, title := "", type? := some "BROWSER", url? := some "u2" }

/-- A session directory holding three saved browser records. -/
def dirThree : SessionDir := { tabsJson := some [rec0, rec1, rec2] }

/-- C2 counterexample: when restoring record 1 raises, record 2 — which
restores fine on its own — is never restored: the one `try` around the
whole loop re-raises, `load_last_session` returns `false`, and only the
tab built before the failure exists. -/
theorem load_tabs_failure_drops_rest_cex :
    load_last_session (fun i => i == 1) dirThree [] =
      (false, [{ kind := .BROWSER, url := "u0" }])
    ∧ mkTab dirThree rec2 = some { kind := .BROWSER, url := "u2" } := by
  constructor
  · rfl
  · rfl

/-- C2 (amended).  The first record whose restoration raises aborts
`_load_tabs`: the records after it are not restored, the tabs created
before it remain, and `load_last_session` catches the exception and
returns `false`. -/
theorem restore_first_failure_aborts (failAt : ℕ → Bool) (dir : SessionDir)
    (rs : List TabRecord) (prior : List Tab) (j : ℕ)
    (hdir : dir.tabsJson = some rs)
    (hj : j < rs.length) (hfail : failAt j = true)
    (hbefore : ∀ k, k < j → failAt k = false) :
    load_last_session failAt dir prior = (false, (rs.take j).filterMap (mkTab dir)) := by
  have main : ∀ (rs : List TabRecord) (i j : ℕ), j < rs.length → failAt (i + j) = true →
      (∀ k, k < j → failAt (i + k) = false) →
      restoreTabs failAt dir rs i = (false, (rs.take j).filterMap (mkTab dir)) := by
    intro rs
    induction rs with
    | nil =>
      intro i j hj _ _
      exact absurd hj (by simp)
    | cons r rs ih =>
      intro i j hj hf hb
      cases j with
      | zero =>
        rw [Nat.add_zero] at hf
        simp [restoreTabs, hf]
      | succ j =>
        have h0 : failAt i = false := by
          have := hb 0 (Nat.succ_pos j)
          rwa [Nat.add_zero] at this
        have hf' : failAt ((i + 1) + j) = true := by
          rw [show (i + 1) + j = i + (j + 1) by omega]
          exact hf
        have hb' : ∀ k, k < j → failAt ((i + 1) + k) = false := by
          intro k hk
          rw [show (i + 1) + k = i + (k + 1) by omega]
          exact hb (k + 1) (by omega)
        have hrec := ih (i + 1) j (by simpa using hj) hf' hb'
        cases hm : mkTab dir r with
        | some t => simp [restoreTabs, h0, hm, hrec, List.filterMap_cons]
        | none => simp [restoreTabs, h0, hm, hrec, List.filterMap_cons]
  have h := main rs 0 j hj (by simpa using hfail) (by intro k hk; simpa using hbefore k hk)
  simp [load_last_session, hdir, h]

/-- C2 witness: the general abort statement applied to the concrete
three-record directory, with different pre-existing tabs. -/
theorem restore_first_failure_aborts_w :
    load_last_session (fun i => i == 1) dirThree [{ kind := .TERMINAL }] =
      (false, [{ kind := .BROWSER, url := "u0" }]) := by
  have h := restore_first_failure_aborts (fun i => i == 1) dirThree [rec0, rec1, rec2]
    [{ kind := .TERMINAL }] 1 rfl (by decide) (by decide)
    (by intro k hk; have : k = 0 := by omega
        subst this
        rfl)
  exact h.trans (by rfl)

/-! ### C10 — no file: untouched; file: no merge -/

/-- C10.  With no `tabs.json`, `load_last_session` returns `false` and
the caller's tabs are exactly what they were; with a `tabs.json`, the
result is the same whatever tabs were open before the call — every
pre-existing tab is closed first, so the outcome derives from the saved
records alone and is never a merge. -/
theorem load_session_no_file_no_merge (failAt : ℕ → Bool) (dir : SessionDir)
    (prior : List Tab) :
    (dir.tabsJson = none → load_last_session failAt dir prior = (false, prior))
    ∧ (∀ rs, dir.tabsJson = some rs →
        load_last_session failAt dir prior = load_last_session failAt dir []) := by
  constructor
  · intro h
    simp [load_last_session, h]
  · intro rs h
    simp [load_last_session, h]

/-- C10 witness: the theorem at an empty directory and at the
three-record directory. -/
theorem load_session_no_file_no_merge_w :
    load_last_session (fun _ => false) {} [{ kind := .TERMINAL }] =
      (false, [{ kind := .TERMINAL }])
    ∧ load_last_session (fun _ => false) dirThree [{ kind := .TERMINAL }] =
      load_last_session (fun _ => false) dirThree [] :=
  ⟨(load_session_no_file_no_merge (fun _ => false) {} [{ kind := .TERMINAL }]).1 rfl,
   (load_session_no_file_no_merge (fun _ => false) dirThree [{ kind := .TERMINAL }]).2
     [rec0, rec1, rec2] rfl⟩

/-! ### C9 — save/load round trip of the kind sequence -/

/-- A fully raw-keyed (hence `json.dump`-able) sheet encodes fine. -/
theorem encodeSheet_isOk (l : List (SKey × String))
    (h : l.all (fun p => match p.1 with | .raw _ => true | .cell _ _ => false) = true) :
    ∃ out, encodeSheet l = .ok out := by
  induction l with
  | nil => exact ⟨[], rfl⟩
  | cons p l ih =>
    simp only [List.all_cons, Bool.and_eq_true] at h
    obtain ⟨out, hout⟩ := ih h.2
    obtain ⟨k, v⟩ := p
    cases k with
    | cell r c => exact absurd h.1 (by simp)
    | raw w => exact ⟨(w, v) :: out, by simp [encodeSheet, dumpKey, hout]⟩

/-- Restoring the record saved for a tab whose kind survives the round
trip (`tab_type` carried and a factory branch present) recreates a tab of
the same kind, whatever the directory contents and position. -/
theorem mkTab_tabRecord_kind (d : SessionDir) (i : ℕ) (t : Tab)
    (h : roundTripKind t.kind = true) :
    (mkTab d (tabRecord i t)).map Tab.kind = some t.kind := by
  cases ht : t.kind with
  | BROWSER => simp [tabRecord, hasTabTypeAttr, ht, TabType.name, mkTab]
  | NOTEPAGE => simp [tabRecord, hasTabTypeAttr, ht, TabType.name, mkTab]
  | NOTEPAGE_EXC => simp [tabRecord, hasTabTypeAttr, ht, TabType.name, mkTab]
  | CHAT => rw [ht] at h; exact absurd h (by simp [roundTripKind, hasTabTypeAttr])
  | TERMINAL => rw [ht] at h; exact absurd h (by simp [roundTripKind, hasTabTypeAttr])
  | RESOURCE_MONITOR => rw [ht] at h; exact absurd h (by simp [roundTripKind, handledKind])
  | AI_BROWSER => rw [ht] at h; exact absurd h (by simp [roundTripKind, handledKind])

/-- With no failing record the restore loop creates one tab per record
that has a factory branch, in order. -/
theorem restoreTabs_noFail (d : SessionDir) (rs : List TabRecord) (i : ℕ) :
    restoreTabs (fun _ => false) d rs i = (true, rs.filterMap (mkTab d)) := by
  induction rs generalizing i with
  | nil => rfl
  | cons r rs ih =>
    cases hm : mkTab d r with
    | some t => simp [restoreTabs, hm, ih (i + 1), List.filterMap_cons]
    | none => simp [restoreTabs, hm, ih (i + 1), List.filterMap_cons]

/-- The records `_save_tabs` emits restore to tabs of exactly the saved
kinds, when every kind survives the round trip and every sheet
serializes. -/
theorem saveTabsAux_ok_kinds :
    ∀ (tabs : List Tab) (i : ℕ),
      (∀ t ∈ tabs, roundTripKind t.kind = true) →
      (∀ t ∈ tabs, sheetDumpable t = true) →
      ∃ rs ns ss, saveTabsAux tabs i = .ok (rs, ns, ss)
        ∧ ∀ d : SessionDir, (rs.filterMap (mkTab d)).map Tab.kind = tabs.map Tab.kind := by
  intro tabs
  induction tabs with
  | nil => exact fun i _ _ => ⟨[], [], [], rfl, fun d => rfl⟩
  | cons t ts ih =>
    intro i hk hs
    obtain ⟨rs, ns, ss, hok, hkinds⟩ := ih (i + 1)
      (fun u hu => hk u (List.mem_cons_of_mem _ hu))
      (fun u hu => hs u (List.mem_cons_of_mem _ hu))
    have hkt : roundTripKind t.kind = true := hk t (List.mem_cons_self _ _)
    have hrec : ∀ d : SessionDir,
        ((tabRecord i t :: rs).filterMap (mkTab d)).map Tab.kind
          = (t :: ts).map Tab.kind := by
      intro d
      have hmk := mkTab_tabRecord_kind d i t hkt
      cases hm : mkTab d (tabRecord i t) with
      | none => rw [hm] at hmk; exact absurd hmk (by simp)
      | some t' =>
        rw [hm] at hmk
        have hk' : t'.kind = t.kind := by simpa using hmk
        simp only [List.filterMap_cons, hm, List.map_cons, hkinds d, hk']
    cases ht : t.kind with
    | NOTEPAGE_EXC =>
      have hsd : sheetDumpable t = true := hs t (List.mem_cons_self _ _)
      obtain ⟨enc, henc⟩ := encodeSheet_isOk t.sheet (by simpa [sheetDumpable] using hsd)
      refine ⟨tabRecord i t :: rs, ns, (sheetFileName i, enc) :: ss, ?_, hrec⟩
      simp [saveTabsAux, ht, henc, hok]
    | NOTEPAGE =>
      refine ⟨tabRecord i t :: rs, (noteFileName i, t.noteText) :: ns, ss, ?_, hrec⟩
      simp [saveTabsAux, ht, hok]
    | BROWSER =>
      exact ⟨tabRecord i t :: rs, ns, ss, by simp [saveTabsAux, ht, hok], hrec⟩
    | CHAT =>
      rw [ht] at hkt
      exact absurd hkt (by simp [roundTripKind, hasTabTypeAttr])
    | TERMINAL =>
      rw [ht] at hkt
      exact absurd hkt (by simp [roundTripKind, hasTabTypeAttr])
    | RESOURCE_MONITOR =>
      rw [ht] at hkt
      exact absurd hkt (by simp [roundTripKind, handledKind])
    | AI_BROWSER =>
      rw [ht] at hkt
      exact absurd hkt (by simp [roundTripKind, handledKind])
/-- `_save_chat_logs` writes an empty log list from any tab set: no tab
both carries `tab_type` and has the CHAT kind, because `AIChatTab` never
sets the attribute. -/
theorem chatLogsFrom_empty : ∀ (tabs : List Tab) (i : ℕ), chatLogsFrom tabs i = [] := by
  intro tabs
  induction tabs with
  | nil => intro i; rfl
  | cons t ts ih =>
    intro i
    by_cases ht : t.kind = .CHAT
    · simp [chatLogsFrom, ht, hasTabTypeAttr, ih]
    · simp [chatLogsFrom, ht, ih]

/-- A successful save makes the round trip report the loaded tabs. -/
theorem roundTrip_of_save_ok (tabs : List Tab) (now : String) (dir d : SessionDir)
    (h : save_session tabs now dir = .ok d) :
    roundTrip tabs now dir =
      some ((load_last_session (fun _ => false) d []).2.map Tab.kind) := by
  simp [roundTrip, h]

/-- An error-free load on a directory with saved tabs and chat logs:
restore every record, then replay the chat logs. -/
theorem load_after_ok (d : SessionDir) (rs : List TabRecord) (logs : List ChatLog)
    (h1 : d.tabsJson = some rs) (h2 : d.chatsJson = some logs) :
    load_last_session (fun _ => false) d [] =
      (true, logs.foldl applyChatLog (rs.filterMap (mkTab d))) := by
  simp [load_last_session, h1, restoreTabs_noFail, loadChatLogs, h2]

/-- C9 (amended).  Saving and then loading the unmodified snapshot
recreates exactly the saved ordered kind sequence only for tab sets
whose kinds are BROWSER, NOTEPAGE or NOTEPAGE_EXC (with serializable
sheets).  CHAT and TERMINAL tabs never carry `tab_type`, so their records
are written without a `type` key and dropped on load; RESOURCE_MONITOR
and AI_BROWSER records are written typed but have no factory branch in
`_load_tabs` and are dropped too. -/
theorem session_roundtrip_kinds (tabs : List Tab) (now : String) (dir : SessionDir)
    (hk : ∀ t ∈ tabs, roundTripKind t.kind = true)
    (hs : ∀ t ∈ tabs, sheetDumpable t = true) :
    roundTrip tabs now dir = some (tabs.map Tab.kind) := by
  obtain ⟨rs, ns, ss, hok, hkinds⟩ := saveTabsAux_ok_kinds tabs 0 hk hs
  set d : SessionDir :=
    { tabsJson := some rs
      noteFiles := ns.foldl (fun fs p => upsertFile fs p.1 p.2) dir.noteFiles
      sheetFiles := ss.foldl (fun fs p => upsertFile fs p.1 p.2) dir.sheetFiles
      chatsJson := some (chatLogsFrom tabs 0)
      historyJson := some (save_history tabs now dir.historyJson) } with hd
  have hsave : save_session tabs now dir = .ok d := by
    rw [hd]
    simp [save_session, hok]
  have h1 : d.tabsJson = some rs := by rw [hd]
  have h2 : d.chatsJson = some [] := by
    rw [hd]
    simp [chatLogsFrom_empty]
  rw [roundTrip_of_save_ok tabs now dir d hsave, load_after_ok d rs [] h1 h2]
  show some ((([] : List ChatLog).foldl applyChatLog (rs.filterMap (mkTab d))).map Tab.kind)
      = some (tabs.map Tab.kind)
  rw [List.foldl_nil, hkinds d]

/-- One tab of each kind that survives the round trip. -/
def tabsRoundTrip : List Tab :=
  [{ kind := .BROWSER, url := "https://a.example" },
   { kind := .NOTEPAGE, noteText := "n" },
   { kind := .NOTEPAGE_EXC, sheet := [] }]

/-- C9 witness: the round trip on one tab of each surviving kind. -/
theorem session_roundtrip_kinds_w :
    roundTrip tabsRoundTrip "t" {} =
      some [.BROWSER, .NOTEPAGE, .NOTEPAGE_EXC] :=
  (session_roundtrip_kinds tabsRoundTrip "t" {} (by decide) (by decide)).trans (by decide)

/-- C9 counterexample: a saved RESOURCE_MONITOR tab vanishes on load
(`_load_tabs` has no factory branch for its record), and saved CHAT and
TERMINAL tabs vanish too (their classes never set `tab_type`, so their
records carry no `type` key) — the restored kind sequences are empty
instead of equalling the saved ones. -/
theorem session_roundtrip_drops_monitor_cex :
    roundTrip [{ kind := .RESOURCE_MONITOR, title := "m" }] "t" {} = some []
    ∧ roundTrip [{ kind := .CHAT, chat := [("me", "hi")] }, { kind := .TERMINAL }] "t" {}
        = some []
    ∧ (([{ kind := .RESOURCE_MONITOR, title := "m" }] : List Tab).map Tab.kind
        = [TabType.RESOURCE_MONITOR]) := by
  exact ⟨rfl, rfl, rfl⟩
